import Mathlib

/-!
Verification development for the serial boot/crash monitor
(`tutorials/CWHUSKY/mpumonitor.py`).

The Python module is embedded shallowly:

* the five module-level regular expressions (`RE_CPU_RESET`,
  `RE_BOOT_FINISHED`, `RE_CRASH_START`, `RE_CRASH_END`, `RE_ELR`, `RE_LR`,
  `RE_ESR` and the `findall` pattern of eight hex digits) become executable
  character-list matchers below, faithful to Python `re` semantics on the
  ASCII lines the monitor consumes (in each pattern every greedy
  quantifier is followed by a literal disjoint from the quantified class,
  so greedy matching without backtracking is exact);
* the mutable `SerialMonitor` object becomes the `Monitor` structure with
  explicit state passing, `datetime.now()` becomes the ambient `time`
  field, and the Python dict `crash_db` becomes an insertion-ordered
  association list with dict-update semantics;
* `json.dump` / `json.load` become an encoding of the crash database into
  a JSON syntax tree and its decoding.
-/

set_option autoImplicit false

namespace MpuMonitor

/-! ## Character classes (Python `re`, ASCII range) -/

/-- Python regex class `\s` restricted to ASCII. -/
def pySpace (c : Char) : Bool :=
  c = ' ' || c = '\t' || c = '\n' || c = '\r' || c = '\x0b' || c = '\x0c'

/-- Python regex class `\w` restricted to ASCII, used for `\b` boundaries. -/
def pyWordChar (c : Char) : Bool :=
  c.isAlpha || c.isDigit || c = '_'

/-- The class `[0-9a-fA-F]` of `RE_ESR` and of the `findall` pattern. -/
def pyHexDigit (c : Char) : Bool :=
  c.isDigit || ('a' ≤ c && c ≤ 'f') || ('A' ≤ c && c ≤ 'F')

/-- The class `[0-9A-Fa-fx]` capturing register values in `RE_ELR` / `RE_LR`. -/
def regValChar (c : Char) : Bool :=
  c.isDigit || ('a' ≤ c && c ≤ 'f') || ('A' ≤ c && c ≤ 'F') || c = 'x'

/-! ## Matching primitives -/

/-- Consume a literal prefix, returning the rest of the input on success. -/
def dropLit : List Char → List Char → Option (List Char)
  | [], s => some s
  | _ :: _, [] => none
  | c :: cs, d :: ds => if c = d then dropLit cs ds else none

/-- Consume `\s+`: at least one whitespace character, then all following ones. -/
def dropSpaces1 : List Char → Option (List Char)
  | c :: rest => if pySpace c then some (rest.dropWhile pySpace) else none
  | [] => none

/-- A `\b` boundary after a word character: end of input or a non-word char. -/
def nonWordNext : List Char → Bool
  | [] => true
  | c :: _ => !pyWordChar c

/-- Substring test used for unanchored `re.search` of a literal. -/
def containsSub (needle : List Char) : List Char → Bool
  | [] => needle.isEmpty
  | c :: rest => needle.isPrefixOf (c :: rest) || containsSub needle rest

/-- Lower-cased character list of a string, for case-insensitive search. -/
def lstr (s : String) : List Char :=
  s.data.map Char.toLower

/-- Python `l.startswith(pre)`. -/
def pyStartsWith (l pre : String) : Bool :=
  pre.data.isPrefixOf l.data

/-! ## The five line matchers -/

/-- `RE_CPU_RESET.search`: `^NOTICE:\s+CPU:\s+STM32MP257FAI\s+Rev\.Y\b`. -/
def matchCpuReset (line : String) : Bool :=
  ((((((((dropLit "NOTICE:".data line.data).bind
    dropSpaces1).bind (dropLit "CPU:".data)).bind
    dropSpaces1).bind (dropLit "STM32MP257FAI".data)).bind
    dropSpaces1).bind (dropLit "Rev.Y".data)).elim false nonWordNext)

/-- `RE_BOOT_FINISHED.search`: `^## Starting application at 0x88000040\b`. -/
def matchBootFinished (line : String) : Bool :=
  (dropLit "## Starting application at 0x88000040".data line.data).elim
    false nonWordNext

/-- `RE_CRASH_START.search` with `re.I`:
`(Synchronous Abort|Undefined Instruction|Exception)`. -/
def matchCrashStart (line : String) : Bool :=
  containsSub (lstr "Synchronous Abort") (lstr line) ||
  containsSub (lstr "Undefined Instruction") (lstr line) ||
  containsSub (lstr "Exception") (lstr line)

/-- Whether a closing parenthesis occurs somewhere in the input. -/
def hasCloseParen : List Char → Bool
  | [] => false
  | c :: rest => c = ')' || hasCloseParen rest

/-- The tail `.* \(.*\)` of `RE_CRASH_END`: some occurrence of a space
followed by an opening parenthesis, with a closing parenthesis after it. -/
def hasParenGroup : List Char → Bool
  | ' ' :: '(' :: rest => hasCloseParen rest || hasParenGroup ('(' :: rest)
  | _ :: rest => hasParenGroup rest
  | [] => false

/-- `RE_CRASH_END.search`: `^Code: .* \(.*\)`. -/
def matchCrashEnd (line : String) : Bool :=
  (dropLit "Code: ".data line.data).elim false hasParenGroup

/-! ## Register-field capture searches -/

/-- Try `elr:\s*([0-9A-Fa-fx]+)` anchored at the present position. -/
def tryElr (s : List Char) : Option String :=
  match dropLit "elr:".data s with
  | none => none
  | some r =>
    let run := (r.dropWhile pySpace).takeWhile regValChar
    if run.isEmpty then none else some (String.mk run)

/-- `RE_ELR.search`: first position where `tryElr` succeeds. -/
def searchElr : List Char → Option String
  | [] => none
  | c :: rest =>
    match tryElr (c :: rest) with
    | some v => some v
    | none => searchElr rest

/-- Try `lr\s*:\s*([0-9A-Fa-fx]+)` anchored at the present position. -/
def tryLr (s : List Char) : Option String :=
  match dropLit "lr".data s with
  | none => none
  | some r =>
    match dropLit ":".data (r.dropWhile pySpace) with
    | none => none
    | some r2 =>
      let run := (r2.dropWhile pySpace).takeWhile regValChar
      if run.isEmpty then none else some (String.mk run)

/-- `RE_LR.search`: first position where `tryLr` succeeds. -/
def searchLr : List Char → Option String
  | [] => none
  | c :: rest =>
    match tryLr (c :: rest) with
    | some v => some v
    | none => searchLr rest

/-- Try `esr\s*(0x[0-9a-fA-F]+)` anchored at the present position; the
capture group includes the `0x` prefix. -/
def tryEsr (s : List Char) : Option String :=
  match dropLit "esr".data s with
  | none => none
  | some r =>
    match dropLit "0x".data (r.dropWhile pySpace) with
    | none => none
    | some r2 =>
      let run := r2.takeWhile pyHexDigit
      if run.isEmpty then none else some (String.mk ('0' :: 'x' :: run))

/-- `RE_ESR.search`: first position where `tryEsr` succeeds. -/
def searchEsr : List Char → Option String
  | [] => none
  | c :: rest =>
    match tryEsr (c :: rest) with
    | some v => some v
    | none => searchEsr rest

/-! ## Crash-buffer extractors (`_extract_elr` / `_extract_lr` / `_extract_esr`
/ `_extract_code`) -/

/-- `_extract_elr`: first capture of `RE_ELR` over the lines, else `none`. -/
def extract_elr : List String → Option String
  | [] => none
  | l :: rest =>
    match searchElr l.data with
    | some v => some v
    | none => extract_elr rest

/-- `_extract_lr`: first capture of `RE_LR` over the lines, else `none`. -/
def extract_lr : List String → Option String
  | [] => none
  | l :: rest =>
    match searchLr l.data with
    | some v => some v
    | none => extract_lr rest

/-- `_extract_esr`: first capture of `RE_ESR` over the lines, else `none`. -/
def extract_esr : List String → Option String
  | [] => none
  | l :: rest =>
    match searchEsr l.data with
    | some v => some v
    | none => extract_esr rest

/-- Fuelled scan behind `findall8hex`; every step consumes at least one
character and one unit of fuel, so fuel equal to the input length is
enough. Structural recursion keeps the function kernel-reducible. -/
def findall8hexFuel : Nat → List Char → List String
  | _, [] => []
  | 0, _ :: _ => []
  | fuel + 1, c :: rest =>
    if 8 ≤ (c :: rest).length && ((c :: rest).take 8).all pyHexDigit then
      String.mk ((c :: rest).take 8) :: findall8hexFuel fuel ((c :: rest).drop 8)
    else
      findall8hexFuel fuel rest

/-- `re.findall(r"[0-9a-fA-F]{8}", l)`: leftmost non-overlapping runs of
exactly eight hex digits, in order. -/
def findall8hex (s : List Char) : List String :=
  findall8hexFuel s.length s

/-- `_extract_code`: on the first line starting with `"Code:"`, split the
eight-hex-digit tokens into previous instructions and faulting instruction;
`(none, none)` when no such line exists or it has no tokens. -/
def extract_code : List String → Option (List String) × Option String
  | [] => (none, none)
  | l :: rest =>
    if pyStartsWith l "Code:" then
      let parts := findall8hex l.data
      if parts.isEmpty then (none, none)
      else (some parts.dropLast, parts.getLast?)
    else extract_code rest

/-! ## Data model -/

/-- One entry of the crash database (`crash_entry` in `_finalize_crash`).
`datetime.now().isoformat()` is modelled by the ambient clock value. -/
structure CrashRecord where
  timestamp : Nat
  run_id : Option String
  complete : Bool
  esr : Option String
  elr : Option String
  lr : Option String
  prev_instructions : Option (List String)
  faulting_instruction : Option String
  raw_dump : List String
deriving Repr, DecidableEq

/-- Python truthiness coercion `x if x else None` on an optional string:
the empty string collapses to `none`. -/
def pyOptStr : Option String → Option String
  | none => none
  | some s => if s = "" then none else some s

/-- Python truthiness coercion `x if x else None` on an optional list:
the empty list collapses to `none`. -/
def pyOptList : Option (List String) → Option (List String)
  | none => none
  | some l => if l.isEmpty then none else some l

/-- The mutable state of a `SerialMonitor` instance (`port` / `baud` /
`thread` belong to the excluded transport layer; `time` models the wall
clock read by `datetime.now()`). -/
structure Monitor where
  print_enabled : Bool
  running : Bool
  state : String
  log_buffer : List String
  max_log : Nat
  crash_active : Bool
  crash_temp : List String
  last_crash : List String
  run_id : Option String
  run_counter : Int
  crash_db_path : String
  crash_db : List (String × CrashRecord)
  time : Nat
deriving Repr, DecidableEq

/-- The state built by `SerialMonitor.__init__` with default arguments. -/
def initMonitor : Monitor where
  print_enabled := false
  running := false
  state := "unknown"
  log_buffer := []
  max_log := 5000
  crash_active := false
  crash_temp := []
  last_crash := []
  run_id := none
  run_counter := 0
  crash_db_path := "crash_db.json"
  crash_db := []
  time := 0

/-- Update of a Python dict modelled as an insertion-ordered association
list: an existing key is overwritten in place, a new key is appended. -/
def dictInsert (k : String) (v : CrashRecord) :
    List (String × CrashRecord) → List (String × CrashRecord)
  | [] => [(k, v)]
  | (k2, v2) :: rest =>
    if k2 = k then (k, v) :: rest else (k2, v2) :: dictInsert k v rest

/-- `collections.deque(maxlen=n).append`: the oldest entries are evicted
from the front once the bound is exceeded. -/
def dequeAppend (maxlen : Nat) (buf : List String) (x : String) : List String :=
  let b := buf ++ [x]
  if maxlen < b.length then b.drop (b.length - maxlen) else b

/-! ## Crash finalization and line processing -/

/-- The `crash_entry` dict built at the top of `_finalize_crash`, before
the lazy run-id fallback: its `run_id` field is the monitor's current
(possibly absent) run id. -/
def mkEntry (s : Monitor) (complete : Bool) : CrashRecord where
  timestamp := s.time
  run_id := s.run_id
  complete := complete
  esr := pyOptStr (extract_esr s.crash_temp)
  elr := pyOptStr (extract_elr s.crash_temp)
  lr := pyOptStr (extract_lr s.crash_temp)
  prev_instructions := pyOptList (extract_code s.crash_temp).1
  faulting_instruction := pyOptStr (extract_code s.crash_temp).2
  raw_dump := s.crash_temp

/-- `_finalize_crash(complete)`: build the entry, lazily allocate a run id
when none was ever assigned, store the entry under the (possibly fresh)
run id and clear the capture buffer. -/
def finalize_crash (complete : Bool) (s : Monitor) : Monitor :=
  let entry := mkEntry s complete
  match s.run_id with
  | none =>
    let rid := "run_" ++ toString (s.run_counter + 1)
    { s with
        crash_active := false
        last_crash := s.crash_temp
        run_counter := s.run_counter + 1
        run_id := some rid
        crash_db := dictInsert rid entry s.crash_db
        crash_temp := [] }
  | some rid =>
    { s with
        crash_active := false
        last_crash := s.crash_temp
        crash_db := dictInsert rid entry s.crash_db
        crash_temp := [] }

/-- `_process_line(line)`: reset detection, rolling-log append, crash
capture, boot-finished detection. -/
def process_line (line : String) (s : Monitor) : Monitor :=
  if matchCpuReset line then
    let s1 := if s.crash_active then finalize_crash false s else s
    { s1 with
        run_counter := s1.run_counter + 1
        run_id := some ("run_" ++ toString (s1.run_counter + 1))
        state := "booting"
        log_buffer := dequeAppend s1.max_log [] line }
  else
    let s1 := { s with log_buffer := dequeAppend s.max_log s.log_buffer line }
    let s2 :=
      if matchCrashStart line then
        { s1 with crash_active := true, crash_temp := [] }
      else s1
    if s2.crash_active then
      let s3 := { s2 with crash_temp := s2.crash_temp ++ [line] }
      if matchCrashEnd line then finalize_crash true s3 else s3
    else
      if matchBootFinished line then { s2 with state := "running" } else s2

/-- `_process_line` folded over a list of lines, oldest first. -/
def runLines (lines : List String) (s : Monitor) : Monitor :=
  lines.foldl (fun t l => process_line l t) s

/-- Public API `set_run_id(rid)`. -/
def set_run_id (rid : String) (s : Monitor) : Monitor :=
  { s with run_id := some rid }

/-- Public API `get_state()`. -/
def get_state (s : Monitor) : String := s.state

/-- Public API `get_crash()`. -/
def get_crash (s : Monitor) : List String := s.last_crash

/-- Public API `get_logs()`. -/
def get_logs (s : Monitor) : List String := s.log_buffer

/-! ## Persistence (`save_db` / `load_db`)

`json.dump` and `json.load` are Python standard-library collaborators; the
file contents they exchange are modelled as a JSON syntax tree, written and
read without loss. -/

/-- JSON values, as produced by `json.dump` for the crash database. -/
inductive Json where
  | null : Json
  | bool (b : Bool) : Json
  | str (s : String) : Json
  | num (n : Nat) : Json
  | arr (elems : List Json) : Json
  | obj (fields : List (String × Json)) : Json

/-- Encode an optional string as a JSON string or `null`. -/
def optStrJson : Option String → Json
  | none => Json.null
  | some s => Json.str s

/-- Encode one crash record as the JSON object `json.dump` writes for it. -/
def encodeRecord (r : CrashRecord) : Json :=
  Json.obj
    [("timestamp", Json.num r.timestamp),
     ("run_id", optStrJson r.run_id),
     ("complete", Json.bool r.complete),
     ("esr", optStrJson r.esr),
     ("elr", optStrJson r.elr),
     ("lr", optStrJson r.lr),
     ("prev_instructions",
       match r.prev_instructions with
       | none => Json.null
       | some l => Json.arr (l.map Json.str)),
     ("faulting_instruction", optStrJson r.faulting_instruction),
     ("raw_dump", Json.arr (r.raw_dump.map Json.str))]

/-- Encode the whole crash database, keys in insertion order. -/
def encodeDb (db : List (String × CrashRecord)) : Json :=
  Json.obj (db.map fun kv => (kv.1, encodeRecord kv.2))

/-- Decode a JSON string-or-`null` back to an optional string. -/
def decodeOptStr : Json → Option (Option String)
  | Json.null => some none
  | Json.str s => some (some s)
  | _ => none

/-- Decode a homogeneous list of JSON strings. -/
def decodeStrs : List Json → Option (List String)
  | [] => some []
  | Json.str s :: rest => (decodeStrs rest).map (s :: ·)
  | _ => none

/-- Decode a JSON value into a crash record, inverse to `encodeRecord`. -/
def decodeRecord : Json → Option CrashRecord
  | Json.obj
      [("timestamp", Json.num t),
       ("run_id", jrid),
       ("complete", Json.bool c),
       ("esr", jesr),
       ("elr", jelr),
       ("lr", jlr),
       ("prev_instructions", jprev),
       ("faulting_instruction", jfault),
       ("raw_dump", Json.arr jraw)] =>
    match decodeOptStr jrid, decodeOptStr jesr, decodeOptStr jelr,
        decodeOptStr jlr, decodeOptStr jfault with
    | some rid, some esr, some elr, some lr, some fault =>
      match (match jprev with
             | Json.null => some none
             | Json.arr js => (decodeStrs js).map some
             | _ => none),
          decodeStrs jraw with
      | some prev, some raw =>
        some
          { timestamp := t, run_id := rid, complete := c, esr := esr,
            elr := elr, lr := lr, prev_instructions := prev,
            faulting_instruction := fault, raw_dump := raw }
      | _, _ => none
    | _, _, _, _, _ => none
  | _ => none

/-- Decode the ordered entries of a persisted crash database. -/
def decodeEntries : List (String × Json) → Option (List (String × CrashRecord))
  | [] => some []
  | (k, j) :: rest =>
    match decodeRecord j, decodeEntries rest with
    | some r, some db => some ((k, r) :: db)
    | _, _ => none

/-- Decode a whole snapshot, inverse to `encodeDb`. -/
def decodeDb : Json → Option (List (String × CrashRecord))
  | Json.obj kvs => decodeEntries kvs
  | _ => none

/-! ## Run-counter recovery (`load_db`)

`int(k.split("_", 1)[1])` on a key that starts with `"run_"`: Python `int`
of the text after the first underscore, which accepts surrounding
whitespace, one optional sign and decimal digits separated by single
underscores, and raises `ValueError` otherwise (the key is then skipped). -/

/-- Accumulate further decimal digits, allowing a single underscore between
two digits as Python integer literals do. -/
def digitsMore (acc : Nat) : List Char → Option Nat
  | [] => some acc
  | c :: rest =>
    if c.isDigit then digitsMore (acc * 10 + (c.toNat - 48)) rest
    else if c = '_' then
      match rest with
      | d :: rest2 =>
        if d.isDigit then digitsMore (acc * 10 + (d.toNat - 48)) rest2 else none
      | [] => none
    else none

/-- Parse a nonempty digit group (with Python underscore separators). -/
def digitsGroup : List Char → Option Nat
  | c :: rest => if c.isDigit then digitsMore (c.toNat - 48) rest else none
  | [] => none

/-- Python `int(s)` for decimal strings: strip whitespace, optional sign,
digit group; `none` models `ValueError`. -/
def pyIntParse (s : String) : Option Int :=
  match ((s.data.dropWhile pySpace).reverse.dropWhile pySpace).reverse with
  | '-' :: rest => (digitsGroup rest).map (fun n => -(n : Int))
  | '+' :: rest => (digitsGroup rest).map (fun n => (n : Int))
  | cs => (digitsGroup cs).map (fun n => (n : Int))

/-- The run-number suffix a key contributes in `load_db`, when any. -/
def keySuffix (k : String) : Option Int :=
  if pyStartsWith k "run_" then pyIntParse (String.mk (k.data.drop 4)) else none

/-- One iteration of the `max_n` loop of `load_db`. -/
def maxStep (m : Int) (k : String) : Int :=
  match keySuffix k with
  | some n => max m n
  | none => m

/-- The `max_n` loop of `load_db` over the stored keys. -/
def recoverCounter (keys : List String) : Int :=
  keys.foldl maxStep 0

/-- `save_db()`: a no-op when the persistence path is unset, otherwise the
snapshot written to the file. -/
def save_db (s : Monitor) : Option Json :=
  if s.crash_db_path = "" then none else some (encodeDb s.crash_db)

/-- `load_db()`: `file = none` models `FileNotFoundError`; a decoded
snapshot restores the mapping and recovers the run counter from its keys. -/
def load_db (file : Option Json) (s : Monitor) : Option Monitor :=
  if s.crash_db_path = "" then some { s with crash_db := [], run_counter := 0 }
  else
    match file with
    | none => some { s with crash_db := [], run_counter := 0 }
    | some j =>
      (decodeDb j).map fun db =>
        { s with
            crash_db := db
            run_counter := recoverCounter (db.map Prod.fst) }

/-- The scenario stream of the specification. -/
def scenarioLines : List String :=
  ["NOTICE: CPU: STM32MP257FAI Rev.Y",
   "boot msg",
   "Synchronous Abort",
   "elr: 0x1234",
   "Code: 11111111 22222222 (33333333)",
   "## Starting application at 0x88000040"]

/-- A monitor with an active crash capture and no run id yet. -/
def sampleCrashState : Monitor :=
  { initMonitor with
      crash_active := true
      crash_temp := ["Synchronous Abort", "elr: 0xdead"] }

/-- A monitor with an active crash capture during run 7. -/
def sampleCrashStateRid : Monitor :=
  { sampleCrashState with run_id := some "run_7", run_counter := 7 }

/-- A concrete crash record used to exercise persistence. -/
def sampleRecord : CrashRecord where
  timestamp := 5
  run_id := some "run_3"
  complete := false
  esr := none
  elr := some "0x1234"
  lr := none
  prev_instructions := none
  faulting_instruction := some "aaaaaaaa"
  raw_dump := ["Synchronous Abort", "elr: 0x1234"]

/-! ## Helper lemmas -/

theorem finalize_crash_of_run_id_some (s : Monitor) (rid : String) (c : Bool)
    (h : s.run_id = some rid) :
    finalize_crash c s =
      { s with
          crash_active := false
          last_crash := s.crash_temp
          crash_db := dictInsert rid (mkEntry s c) s.crash_db
          crash_temp := [] } := by
  simp [finalize_crash, h]

theorem finalize_crash_of_run_id_none (s : Monitor) (c : Bool)
    (h : s.run_id = none) :
    finalize_crash c s =
      { s with
          crash_active := false
          last_crash := s.crash_temp
          run_counter := s.run_counter + 1
          run_id := some ("run_" ++ toString (s.run_counter + 1))
          crash_db :=
            dictInsert ("run_" ++ toString (s.run_counter + 1))
              (mkEntry s c) s.crash_db
          crash_temp := [] } := by
  simp [finalize_crash, h]

theorem dequeAppend_nil (m : Nat) (x : String) (h : 1 ≤ m) :
    dequeAppend m [] x = [x] := by
  have h2 : ¬ m < (([] : List String) ++ [x]).length := by
    simp
    omega
  simp [dequeAppend, h2]
  intro hm
  exact absurd hm (by omega)

/-! ## C1: lines inside an active crash block -/

/-- C1 (counterexample): with a crash capture active on buffer
`["Synchronous Abort"]`, the line `"Undefined Instruction"` is neither a
reset marker nor a crash-end line, yet `_process_line` re-tests it as a
crash-start marker, resets the buffer and appends only the new line, so
the accumulated buffer is discarded instead of being extended. -/
theorem c1_crash_start_retested_counterexample :
    matchCpuReset "Undefined Instruction" = false
    ∧ matchCrashEnd "Undefined Instruction" = false
    ∧ ({ initMonitor with
          crash_active := true
          crash_temp := ["Synchronous Abort"]
          run_id := some "run_1"
          run_counter := 1 } : Monitor).crash_active = true
    ∧ (process_line "Undefined Instruction"
        { initMonitor with
            crash_active := true
            crash_temp := ["Synchronous Abort"]
            run_id := some "run_1"
            run_counter := 1 }).crash_temp = ["Undefined Instruction"]
    ∧ (process_line "Undefined Instruction"
        { initMonitor with
            crash_active := true
            crash_temp := ["Synchronous Abort"]
            run_id := some "run_1"
            run_counter := 1 }).crash_temp
        ≠ ["Synchronous Abort"] ++ ["Undefined Instruction"] := by
  refine ⟨by decide, by decide, rfl, by decide, by decide⟩

/-- C1 (amended): for every state with an active crash capture and every
line that is not a reset marker, not a crash-end line, and does not itself
match the crash-start pattern, `_process_line` appends the line to the
existing crash buffer without resetting it, keeps the capture active and
stores no record; a line matching the crash-start pattern instead restarts
the capture with only that line. -/
theorem c1_crash_lines_appended (s : Monitor) (line : String)
    (hact : s.crash_active = true)
    (hres : matchCpuReset line = false)
    (hend : matchCrashEnd line = false) :
    (process_line line s).crash_temp =
      (if matchCrashStart line then [line] else s.crash_temp ++ [line])
    ∧ (process_line line s).crash_active = true
    ∧ (process_line line s).crash_db = s.crash_db := by
  cases hst : matchCrashStart line <;>
    simp [process_line, hres, hend, hst, hact]

/-- C1 (witness): the amended statement applied to a concrete capture
state and the non-marker line `"elr: 0xdead"`. -/
theorem c1_crash_lines_appended_witness :
    (process_line "elr: 0xdead" sampleCrashStateRid).crash_temp =
      (if matchCrashStart "elr: 0xdead" then ["elr: 0xdead"]
       else sampleCrashStateRid.crash_temp ++ ["elr: 0xdead"])
    ∧ (process_line "elr: 0xdead" sampleCrashStateRid).crash_active = true
    ∧ (process_line "elr: 0xdead" sampleCrashStateRid).crash_db
        = sampleCrashStateRid.crash_db :=
  c1_crash_lines_appended sampleCrashStateRid "elr: 0xdead" rfl
    (by decide) (by decide)

/-! ## C2: lazy run-id allocation at finalization -/

/-- C2 (counterexample): finalizing a crash with no run id ever assigned
stores the record under the freshly allocated key `"run_1"`, but the
record's own `run_id` field is `none`, because the entry dict is built
before the lazy allocation. -/
theorem c2_lazy_alloc_counterexample :
    ({ initMonitor with
        crash_active := true
        crash_temp := ["Synchronous Abort"] } : Monitor).run_id = none
    ∧ ((finalize_crash true
          { initMonitor with
              crash_active := true
              crash_temp := ["Synchronous Abort"] }).crash_db.map
        fun kv => (kv.1, kv.2.run_id)) = [("run_1", none)] := by
  refine ⟨rfl, by decide⟩

/-- C2 (amended): when no run id has ever been assigned, finalization
lazily allocates the fresh run id `"run_<counter+1>"`, stores the record
in the run history under that key and leaves the monitor holding it, but
the stored record's `run_id` field keeps the value it was tagged with
before the allocation, namely `none`. -/
theorem c2_lazy_alloc (s : Monitor) (c : Bool) (h : s.run_id = none) :
    (finalize_crash c s).run_id = some ("run_" ++ toString (s.run_counter + 1))
    ∧ (finalize_crash c s).run_counter = s.run_counter + 1
    ∧ (finalize_crash c s).crash_db
        = dictInsert ("run_" ++ toString (s.run_counter + 1))
            (mkEntry s c) s.crash_db
    ∧ (mkEntry s c).run_id = none := by
  rw [finalize_crash_of_run_id_none s c h]
  exact ⟨rfl, rfl, rfl, by simp [mkEntry, h]⟩

/-- C2 (witness): the amended statement at a concrete capture state that
never saw a reset marker. -/
theorem c2_lazy_alloc_witness :
    sampleCrashState.run_id = none
    ∧ ((finalize_crash true sampleCrashState).run_id
        = some ("run_" ++ toString (sampleCrashState.run_counter + 1))
      ∧ (finalize_crash true sampleCrashState).run_counter
          = sampleCrashState.run_counter + 1
      ∧ (finalize_crash true sampleCrashState).crash_db
          = dictInsert ("run_" ++ toString (sampleCrashState.run_counter + 1))
              (mkEntry sampleCrashState true) sampleCrashState.crash_db
      ∧ (mkEntry sampleCrashState true).run_id = none) :=
  ⟨rfl, c2_lazy_alloc sampleCrashState true rfl⟩

/-! ## C5: the specification scenario -/

theorem runLines_nil (s : Monitor) : runLines [] s = s := rfl

theorem runLines_cons (l : String) (ls : List String) (s : Monitor) :
    runLines (l :: ls) s = runLines ls (process_line l s) := rfl

/-- State after scenario line 1 (the reset marker). -/
def scenarioStep1 : Monitor :=
  { initMonitor with
      state := "booting"
      log_buffer := ["NOTICE: CPU: STM32MP257FAI Rev.Y"]
      run_id := some "run_1"
      run_counter := 1 }

/-- State after scenario line 2. -/
def scenarioStep2 : Monitor :=
  { scenarioStep1 with
      log_buffer := ["NOTICE: CPU: STM32MP257FAI Rev.Y", "boot msg"] }

/-- State after scenario line 3 (the crash-start keyword). -/
def scenarioStep3 : Monitor :=
  { scenarioStep2 with
      log_buffer :=
        ["NOTICE: CPU: STM32MP257FAI Rev.Y", "boot msg", "Synchronous Abort"]
      crash_active := true
      crash_temp := ["Synchronous Abort"] }

/-- State after scenario line 4 (the register line). -/
def scenarioStep4 : Monitor :=
  { scenarioStep3 with
      log_buffer :=
        ["NOTICE: CPU: STM32MP257FAI Rev.Y", "boot msg", "Synchronous Abort",
         "elr: 0x1234"]
      crash_temp := ["Synchronous Abort", "elr: 0x1234"] }

/-- The crash record the scenario finalizes at line 5. -/
def scenarioRecord : CrashRecord where
  timestamp := 0
  run_id := some "run_1"
  complete := true
  esr := none
  elr := some "0x1234"
  lr := some "0x1234"
  prev_instructions := some ["11111111", "22222222"]
  faulting_instruction := some "33333333"
  raw_dump :=
    ["Synchronous Abort", "elr: 0x1234", "Code: 11111111 22222222 (33333333)"]

/-- State after scenario line 5 (the crash-end line). -/
def scenarioStep5 : Monitor :=
  { scenarioStep4 with
      log_buffer :=
        ["NOTICE: CPU: STM32MP257FAI Rev.Y", "boot msg", "Synchronous Abort",
         "elr: 0x1234", "Code: 11111111 22222222 (33333333)"]
      crash_active := false
      crash_temp := []
      last_crash :=
        ["Synchronous Abort", "elr: 0x1234",
         "Code: 11111111 22222222 (33333333)"]
      crash_db := [("run_1", scenarioRecord)] }

/-- State after scenario line 6 (the boot-finished banner). -/
def scenarioStep6 : Monitor :=
  { scenarioStep5 with
      state := "running"
      log_buffer :=
        ["NOTICE: CPU: STM32MP257FAI Rev.Y", "boot msg", "Synchronous Abort",
         "elr: 0x1234", "Code: 11111111 22222222 (33333333)",
         "## Starting application at 0x88000040"] }

theorem scenario_step1_eq :
    process_line "NOTICE: CPU: STM32MP257FAI Rev.Y" initMonitor
      = scenarioStep1 := by decide

theorem scenario_step2_eq :
    process_line "boot msg" scenarioStep1 = scenarioStep2 := by decide

theorem scenario_step3_eq :
    process_line "Synchronous Abort" scenarioStep2 = scenarioStep3 := by decide

theorem scenario_step4_eq :
    process_line "elr: 0x1234" scenarioStep3 = scenarioStep4 := by decide

theorem scenario_step5_eq :
    process_line "Code: 11111111 22222222 (33333333)" scenarioStep4
      = scenarioStep5 := by decide

theorem scenario_step6_eq :
    process_line "## Starting application at 0x88000040" scenarioStep5
      = scenarioStep6 := by decide

theorem runLines_scenario_eq :
    runLines scenarioLines initMonitor = scenarioStep6 := by
  show runLines
    ["NOTICE: CPU: STM32MP257FAI Rev.Y", "boot msg", "Synchronous Abort",
     "elr: 0x1234", "Code: 11111111 22222222 (33333333)",
     "## Starting application at 0x88000040"] initMonitor = scenarioStep6
  rw [runLines_cons, scenario_step1_eq, runLines_cons, scenario_step2_eq,
    runLines_cons, scenario_step3_eq, runLines_cons, scenario_step4_eq,
    runLines_cons, scenario_step5_eq, runLines_cons, scenario_step6_eq,
    runLines_nil]

/-- C5: feeding the six scenario lines from the initial state passes
through Unknown, then Booting after the first line (staying Booting
through the crash block), then Running after the sixth line, and stores
exactly one crash record, keyed `"run_1"`, with `elr = "0x1234"`,
`complete = true` and `faulting_instruction = "33333333"`. -/
theorem c5_scenario :
    (runLines (scenarioLines.take 0) initMonitor).state = "unknown"
    ∧ (runLines (scenarioLines.take 1) initMonitor).state = "booting"
    ∧ (runLines (scenarioLines.take 2) initMonitor).state = "booting"
    ∧ (runLines (scenarioLines.take 3) initMonitor).state = "booting"
    ∧ (runLines (scenarioLines.take 4) initMonitor).state = "booting"
    ∧ (runLines (scenarioLines.take 5) initMonitor).state = "booting"
    ∧ (runLines scenarioLines initMonitor).state = "running"
    ∧ (runLines scenarioLines initMonitor).crash_db.map Prod.fst = ["run_1"]
    ∧ ((runLines scenarioLines initMonitor).crash_db.map fun kv =>
        (kv.2.elr, kv.2.complete, kv.2.faulting_instruction))
      = [(some "0x1234", true, some "33333333")] := by
  have t0 : scenarioLines.take 0 = [] := rfl
  have t1 : scenarioLines.take 1 = ["NOTICE: CPU: STM32MP257FAI Rev.Y"] := rfl
  have t2 : scenarioLines.take 2
      = ["NOTICE: CPU: STM32MP257FAI Rev.Y", "boot msg"] := rfl
  have t3 : scenarioLines.take 3
      = ["NOTICE: CPU: STM32MP257FAI Rev.Y", "boot msg",
         "Synchronous Abort"] := rfl
  have t4 : scenarioLines.take 4
      = ["NOTICE: CPU: STM32MP257FAI Rev.Y", "boot msg", "Synchronous Abort",
         "elr: 0x1234"] := rfl
  have t5 : scenarioLines.take 5
      = ["NOTICE: CPU: STM32MP257FAI Rev.Y", "boot msg", "Synchronous Abort",
         "elr: 0x1234", "Code: 11111111 22222222 (33333333)"] := rfl
  refine ⟨rfl, ?_, ?_, ?_, ?_, ?_, ?_, ?_, ?_⟩
  · rw [t1, runLines_cons, scenario_step1_eq, runLines_nil]
    rfl
  · rw [t2, runLines_cons, scenario_step1_eq, runLines_cons,
      scenario_step2_eq, runLines_nil]
    rfl
  · rw [t3, runLines_cons, scenario_step1_eq, runLines_cons,
      scenario_step2_eq, runLines_cons, scenario_step3_eq, runLines_nil]
    rfl
  · rw [t4, runLines_cons, scenario_step1_eq, runLines_cons,
      scenario_step2_eq, runLines_cons, scenario_step3_eq, runLines_cons,
      scenario_step4_eq, runLines_nil]
    rfl
  · rw [t5, runLines_cons, scenario_step1_eq, runLines_cons,
      scenario_step2_eq, runLines_cons, scenario_step3_eq, runLines_cons,
      scenario_step4_eq, runLines_cons, scenario_step5_eq, runLines_nil]
    rfl
  · rw [runLines_scenario_eq]
    rfl
  · rw [runLines_scenario_eq]
    rfl
  · rw [runLines_scenario_eq]
    rfl

/-! ## C3: reset-marker processing -/

/-- C3: processing a reset-marker line force-finalizes any active crash
capture as incomplete, keyed under the pre-reset run id, then increments
the run counter, assigns the new run id, sets the state to booting and
leaves the rolling log holding exactly the reset line; nothing else of the
line is processed. -/
theorem c3_reset_marker (s : Monitor) (line : String) (rid : String)
    (hline : matchCpuReset line = true)
    (hcap : 1 ≤ s.max_log)
    (hrid : s.crash_active = true → s.run_id = some rid) :
    (process_line line s).state = "booting"
    ∧ (process_line line s).log_buffer = [line]
    ∧ (process_line line s).run_counter = s.run_counter + 1
    ∧ (process_line line s).run_id
        = some ("run_" ++ toString (s.run_counter + 1))
    ∧ (process_line line s).crash_active = false
    ∧ (process_line line s).crash_db =
        (if s.crash_active then dictInsert rid (mkEntry s false) s.crash_db
         else s.crash_db)
    ∧ (s.crash_active = true →
        (mkEntry s false).complete = false
        ∧ (mkEntry s false).raw_dump = s.crash_temp
        ∧ (mkEntry s false).run_id = some rid) := by
  cases hc : s.crash_active with
  | false =>
    simp [process_line, hline, hc, dequeAppend_nil _ _ hcap]
  | true =>
    have hr := hrid hc
    simp [process_line, hline, hc,
      finalize_crash_of_run_id_some s rid false hr,
      dequeAppend_nil _ _ hcap, mkEntry, hr]

/-- C3 (witness): a reset line arriving while run 7 is capturing a crash. -/
theorem c3_reset_marker_witness :
    (process_line "NOTICE: CPU: STM32MP257FAI Rev.Y" sampleCrashStateRid).state
      = "booting"
    ∧ (process_line "NOTICE: CPU: STM32MP257FAI Rev.Y"
        sampleCrashStateRid).log_buffer = ["NOTICE: CPU: STM32MP257FAI Rev.Y"]
    ∧ (process_line "NOTICE: CPU: STM32MP257FAI Rev.Y"
        sampleCrashStateRid).run_counter = sampleCrashStateRid.run_counter + 1
    ∧ (process_line "NOTICE: CPU: STM32MP257FAI Rev.Y"
        sampleCrashStateRid).run_id
        = some ("run_" ++ toString (sampleCrashStateRid.run_counter + 1))
    ∧ (process_line "NOTICE: CPU: STM32MP257FAI Rev.Y"
        sampleCrashStateRid).crash_active = false
    ∧ (process_line "NOTICE: CPU: STM32MP257FAI Rev.Y"
        sampleCrashStateRid).crash_db =
        (if sampleCrashStateRid.crash_active then
          dictInsert "run_7" (mkEntry sampleCrashStateRid false)
            sampleCrashStateRid.crash_db
         else sampleCrashStateRid.crash_db)
    ∧ (sampleCrashStateRid.crash_active = true →
        (mkEntry sampleCrashStateRid false).complete = false
        ∧ (mkEntry sampleCrashStateRid false).raw_dump
            = sampleCrashStateRid.crash_temp
        ∧ (mkEntry sampleCrashStateRid false).run_id = some "run_7") :=
  c3_reset_marker sampleCrashStateRid "NOTICE: CPU: STM32MP257FAI Rev.Y"
    "run_7" (by decide) (by decide) (fun _ => rfl)

/-! ## C4: monotonic run identifiers and counter recovery -/

theorem foldl_maxStep_le (keys : List String) (a : Int) :
    a ≤ keys.foldl maxStep a := by
  induction keys generalizing a with
  | nil => exact le_refl a
  | cons k ks ih =>
    rw [List.foldl_cons]
    refine le_trans ?_ (ih (maxStep a k))
    cases h : keySuffix k with
    | none => simp [maxStep, h]
    | some n =>
      simp only [maxStep, h]
      exact le_max_left a n

theorem le_foldl_maxStep (keys : List String) (k : String) (n : Int)
    (hk : k ∈ keys) (hs : keySuffix k = some n) :
    ∀ a : Int, n ≤ keys.foldl maxStep a := by
  induction keys with
  | nil => cases hk
  | cons k2 ks ih =>
    intro a
    rw [List.foldl_cons]
    rcases List.mem_cons.mp hk with h | h
    · subst h
      refine le_trans ?_ (foldl_maxStep_le ks (maxStep a k))
      simp only [maxStep, hs]
      exact le_max_right a n
    · exact ih h (maxStep a k2)

theorem le_recoverCounter (keys : List String) (k : String) (n : Int)
    (hk : k ∈ keys) (hs : keySuffix k = some n) :
    n ≤ recoverCounter keys :=
  le_foldl_maxStep keys k n hk hs 0

/-- C4: a reset marker increments the run counter by exactly one (whether
or not it also force-finalizes a crash that already has a run id), a lazy
allocation increments it by exactly one (so a reset that also lazily
allocates advances it by two), and reloading a snapshot recovers the
counter as the maximum numeric suffix of the stored `run_<n>` keys, so the
next assigned suffix exceeds every recorded one. -/
theorem c4_runid_monotonic (s : Monitor) (line : String) (c : Bool)
    (j : Json) (s0 s2 : Monitor)
    (hline : matchCpuReset line = true)
    (hload : load_db (some j) s0 = some s2) :
    (s.crash_active = false →
      (process_line line s).run_counter = s.run_counter + 1)
    ∧ (s.crash_active = true → s.run_id ≠ none →
        (process_line line s).run_counter = s.run_counter + 1)
    ∧ (s.run_id = none →
        (finalize_crash c s).run_counter = s.run_counter + 1)
    ∧ (s.crash_active = true → s.run_id = none →
        (process_line line s).run_counter = s.run_counter + 2)
    ∧ (∀ k ∈ s2.crash_db.map Prod.fst, ∀ n, keySuffix k = some n →
        n < s2.run_counter + 1) := by
  refine ⟨?_, ?_, ?_, ?_, ?_⟩
  · intro hc
    simp [process_line, hline, hc]
  · intro hc hr
    obtain ⟨rid, hrid⟩ := Option.ne_none_iff_exists'.mp hr
    simp [process_line, hline, hc,
      finalize_crash_of_run_id_some s rid false hrid]
  · intro hr
    simp [finalize_crash_of_run_id_none s c hr]
  · intro hc hr
    simp [process_line, hline, hc,
      finalize_crash_of_run_id_none s false hr]
    omega
  · intro k hk n hs
    unfold load_db at hload
    by_cases hp : s0.crash_db_path = ""
    · rw [if_pos hp] at hload
      obtain rfl : _ = s2 := Option.some.inj hload
      simp at hk
    · rw [if_neg hp] at hload
      obtain ⟨db, _, hs2⟩ := Option.map_eq_some'.mp hload
      subst hs2
      simp only [List.map_map] at hk
      have h1 : n ≤ recoverCounter (db.map Prod.fst) :=
        le_recoverCounter (db.map Prod.fst) k n hk hs
      exact Int.lt_add_one_iff.mpr h1

/-- C4 (witness): after loading a snapshot holding `"run_3"`, the recovered
counter is 3 and a reset from the fresh state advances the counter. -/
theorem c4_runid_monotonic_witness :
    matchCpuReset "NOTICE: CPU: STM32MP257FAI Rev.Y" = true
    ∧ load_db (some (encodeDb [("run_3", sampleRecord)])) initMonitor
        = some { initMonitor with
                  crash_db := [("run_3", sampleRecord)], run_counter := 3 }
    ∧ (process_line "NOTICE: CPU: STM32MP257FAI Rev.Y" initMonitor).run_counter
        = initMonitor.run_counter + 1 :=
  ⟨by decide, by decide,
    (c4_runid_monotonic initMonitor "NOTICE: CPU: STM32MP257FAI Rev.Y" true
      (encodeDb [("run_3", sampleRecord)]) initMonitor
      { initMonitor with crash_db := [("run_3", sampleRecord)], run_counter := 3 }
      (by decide) (by decide)).1 rfl⟩

/-! ## C6: the code-line extractor -/

theorem extract_code_of_no_code (crash : List String)
    (h : ∀ p ∈ crash, pyStartsWith p "Code:" = false) :
    extract_code crash = (none, none) := by
  induction crash with
  | nil => rfl
  | cons l rest ih =>
    have hl := h l (List.mem_cons_self l rest)
    rw [extract_code, if_neg (by simp [hl])]
    exact ih (fun p hp => h p (List.mem_cons_of_mem l hp))

theorem extract_code_append (pre post : List String) (l : String)
    (hpre : ∀ p ∈ pre, pyStartsWith p "Code:" = false) :
    extract_code (pre ++ l :: post) = extract_code (l :: post) := by
  induction pre with
  | nil => rfl
  | cons q qs ih =>
    have hq := hpre q (List.mem_cons_self q qs)
    rw [List.cons_append, extract_code, if_neg (by simp [hq])]
    exact ih (fun p hp => hpre p (List.mem_cons_of_mem q hp))

/-- C6: `_extract_code` acts on the first line starting with `"Code:"`:
it yields `(none, none)` when no such line exists or that line has no
eight-hex-digit token, and otherwise returns all tokens but the last as
previous instructions and the last as the faulting instruction; on the
single line of the specification example it returns
`(["aaaaaaaa", "bbbbbbbb"], "cccccccc")`. -/
theorem c6_extract_code (crash pre post : List String) (l : String) :
    ((∀ p ∈ crash, pyStartsWith p "Code:" = false) →
      extract_code crash = (none, none))
    ∧ (crash = pre ++ l :: post →
        (∀ p ∈ pre, pyStartsWith p "Code:" = false) →
        pyStartsWith l "Code:" = true →
        ((findall8hex l.data = [] → extract_code crash = (none, none))
        ∧ (∀ ts t, findall8hex l.data = ts ++ [t] →
            extract_code crash = (some ts, some t))))
    ∧ extract_code ["Code: aaaaaaaa bbbbbbbb (cccccccc)"]
        = (some ["aaaaaaaa", "bbbbbbbb"], some "cccccccc") := by
  refine ⟨extract_code_of_no_code crash, ?_, by decide⟩
  rintro rfl hpre hl
  rw [extract_code_append pre post l hpre]
  constructor
  · intro h0
    rw [extract_code, if_pos (by simp [hl]), h0]
    rfl
  · intro ts t h
    rw [extract_code, if_pos (by simp [hl])]
    simp [h]

/-- C6 (witness): the branch hypotheses hold on the concrete buffer
`["boot msg", "Code: 11111111 22222222 (33333333)"]`. -/
theorem c6_extract_code_witness :
    extract_code ["boot msg", "Code: 11111111 22222222 (33333333)"]
      = (some ["11111111", "22222222"], some "33333333") :=
  ((c6_extract_code ["boot msg", "Code: 11111111 22222222 (33333333)"]
      ["boot msg"] [] "Code: 11111111 22222222 (33333333)").2.1 rfl
    (by decide) (by decide)).2 ["11111111", "22222222"] "33333333" (by decide)

/-! ## C7: persistence round trip -/

theorem decodeOptStr_optStrJson (o : Option String) :
    decodeOptStr (optStrJson o) = some o := by
  cases o <;> rfl

theorem decodeStrs_map_str (l : List String) :
    decodeStrs (l.map Json.str) = some l := by
  induction l with
  | nil => rfl
  | cons a l ih => simp [decodeStrs, ih]

theorem decodeRecord_encodeRecord (r : CrashRecord) :
    decodeRecord (encodeRecord r) = some r := by
  obtain ⟨t, rid, c, esr, elr, lr, prev, fault, raw⟩ := r
  cases prev <;>
    simp [encodeRecord, decodeRecord, decodeOptStr_optStrJson,
      decodeStrs_map_str]

theorem decodeEntries_encode (db : List (String × CrashRecord)) :
    decodeEntries (db.map fun kv => (kv.1, encodeRecord kv.2)) = some db := by
  induction db with
  | nil => rfl
  | cons kv rest ih => simp [decodeEntries, decodeRecord_encodeRecord, ih]

theorem decodeDb_encodeDb (db : List (String × CrashRecord)) :
    decodeDb (encodeDb db) = some db := by
  simp [decodeDb, encodeDb, decodeEntries_encode]

/-- C7: with a persistence path set, saving the run history and loading it
back from the same path yields exactly the mapping that was saved — same
keys in the same order, equal records, `raw_dump` order included. -/
theorem c7_save_load_roundtrip (s s2 : Monitor)
    (hpath : ¬ s.crash_db_path = "")
    (hpath2 : s2.crash_db_path = s.crash_db_path) :
    ∃ j, save_db s = some j
      ∧ ∃ s3, load_db (some j) s2 = some s3 ∧ s3.crash_db = s.crash_db := by
  refine ⟨encodeDb s.crash_db, ?_, ?_⟩
  · simp [save_db, hpath]
  · have hp2 : ¬ s2.crash_db_path = "" := by
      rw [hpath2]
      exact hpath
    refine ⟨{ s2 with
        crash_db := s.crash_db
        run_counter := recoverCounter (s.crash_db.map Prod.fst) }, ?_, rfl⟩
    simp [load_db, hp2, decodeDb_encodeDb]

/-- A monitor holding one persisted crash record. -/
def sampleDbState : Monitor :=
  { initMonitor with crash_db := [("run_3", sampleRecord)] }

/-- C7 (witness): the round trip on a monitor holding the record for
`"run_3"` at the default persistence path. -/
theorem c7_save_load_roundtrip_witness :
    ∃ j, save_db sampleDbState = some j
      ∧ ∃ s3, load_db (some j) sampleDbState = some s3
          ∧ s3.crash_db = sampleDbState.crash_db :=
  c7_save_load_roundtrip sampleDbState sampleDbState (by decide) rfl

/-! ## C8: register-field extraction -/

theorem extract_elr_of_none (crash : List String)
    (h : ∀ p ∈ crash, searchElr p.data = none) : extract_elr crash = none := by
  induction crash with
  | nil => rfl
  | cons l rest ih =>
    have hl := h l (List.mem_cons_self l rest)
    simp only [extract_elr, hl]
    exact ih (fun p hp => h p (List.mem_cons_of_mem l hp))

theorem extract_lr_of_none (crash : List String)
    (h : ∀ p ∈ crash, searchLr p.data = none) : extract_lr crash = none := by
  induction crash with
  | nil => rfl
  | cons l rest ih =>
    have hl := h l (List.mem_cons_self l rest)
    simp only [extract_lr, hl]
    exact ih (fun p hp => h p (List.mem_cons_of_mem l hp))

theorem extract_esr_of_none (crash : List String)
    (h : ∀ p ∈ crash, searchEsr p.data = none) : extract_esr crash = none := by
  induction crash with
  | nil => rfl
  | cons l rest ih =>
    have hl := h l (List.mem_cons_self l rest)
    simp only [extract_esr, hl]
    exact ih (fun p hp => h p (List.mem_cons_of_mem l hp))

theorem extract_elr_append (pre post : List String) (l : String) (v : String)
    (hpre : ∀ p ∈ pre, searchElr p.data = none)
    (hl : searchElr l.data = some v) :
    extract_elr (pre ++ l :: post) = some v := by
  induction pre with
  | nil => simp [extract_elr, hl]
  | cons q qs ih =>
    have hq := hpre q (List.mem_cons_self q qs)
    rw [List.cons_append]
    simp only [extract_elr, hq]
    exact ih (fun p hp => hpre p (List.mem_cons_of_mem q hp))

theorem extract_lr_append (pre post : List String) (l : String) (v : String)
    (hpre : ∀ p ∈ pre, searchLr p.data = none)
    (hl : searchLr l.data = some v) :
    extract_lr (pre ++ l :: post) = some v := by
  induction pre with
  | nil => simp [extract_lr, hl]
  | cons q qs ih =>
    have hq := hpre q (List.mem_cons_self q qs)
    rw [List.cons_append]
    simp only [extract_lr, hq]
    exact ih (fun p hp => hpre p (List.mem_cons_of_mem q hp))

theorem extract_esr_append (pre post : List String) (l : String) (v : String)
    (hpre : ∀ p ∈ pre, searchEsr p.data = none)
    (hl : searchEsr l.data = some v) :
    extract_esr (pre ++ l :: post) = some v := by
  induction pre with
  | nil => simp [extract_esr, hl]
  | cons q qs ih =>
    have hq := hpre q (List.mem_cons_self q qs)
    rw [List.cons_append]
    simp only [extract_esr, hq]
    exact ih (fun p hp => hpre p (List.mem_cons_of_mem q hp))

theorem mk_ne_empty_of_ne_nil (run : List Char) (h : run ≠ []) :
    String.mk run ≠ "" := by
  intro hv
  exact h (congrArg String.data hv)

theorem tryElr_ne_empty (s : List Char) (v : String)
    (h : tryElr s = some v) : v ≠ "" := by
  unfold tryElr at h
  cases hd : dropLit "elr:".data s with
  | none => rw [hd] at h; cases h
  | some r =>
    simp only [hd] at h
    by_cases he : ((r.dropWhile pySpace).takeWhile regValChar).isEmpty = true
    · rw [if_pos he] at h; cases h
    · rw [if_neg he] at h
      obtain rfl : String.mk ((r.dropWhile pySpace).takeWhile regValChar) = v :=
        Option.some.inj h
      exact mk_ne_empty_of_ne_nil _ (by simpa using he)

theorem tryLr_ne_empty (s : List Char) (v : String)
    (h : tryLr s = some v) : v ≠ "" := by
  unfold tryLr at h
  cases hd : dropLit "lr".data s with
  | none => rw [hd] at h; cases h
  | some r =>
    simp only [hd] at h
    cases hd2 : dropLit ":".data (r.dropWhile pySpace) with
    | none =>
      simp only [hd2] at h
      cases h
    | some r2 =>
      simp only [hd2] at h
      by_cases he : ((r2.dropWhile pySpace).takeWhile regValChar).isEmpty = true
      · rw [if_pos he] at h; cases h
      · rw [if_neg he] at h
        obtain rfl : String.mk ((r2.dropWhile pySpace).takeWhile regValChar) = v :=
          Option.some.inj h
        exact mk_ne_empty_of_ne_nil _ (by simpa using he)

theorem tryEsr_ne_empty (s : List Char) (v : String)
    (h : tryEsr s = some v) : v ≠ "" := by
  unfold tryEsr at h
  cases hd : dropLit "esr".data s with
  | none => rw [hd] at h; cases h
  | some r =>
    simp only [hd] at h
    cases hd2 : dropLit "0x".data (r.dropWhile pySpace) with
    | none =>
      simp only [hd2] at h
      cases h
    | some r2 =>
      simp only [hd2] at h
      by_cases he : (r2.takeWhile pyHexDigit).isEmpty = true
      · rw [if_pos he] at h; cases h
      · rw [if_neg he] at h
        obtain rfl : String.mk ('0' :: 'x' :: r2.takeWhile pyHexDigit) = v :=
          Option.some.inj h
        exact mk_ne_empty_of_ne_nil _ (by simp)

theorem searchElr_ne_empty (s : List Char) (v : String)
    (h : searchElr s = some v) : v ≠ "" := by
  induction s with
  | nil => cases h
  | cons c rest ih =>
    simp only [searchElr] at h
    cases htry : tryElr (c :: rest) with
    | some w =>
      rw [htry] at h
      obtain rfl := Option.some.inj h
      exact tryElr_ne_empty (c :: rest) w htry
    | none =>
      rw [htry] at h
      exact ih h

theorem searchLr_ne_empty (s : List Char) (v : String)
    (h : searchLr s = some v) : v ≠ "" := by
  induction s with
  | nil => cases h
  | cons c rest ih =>
    simp only [searchLr] at h
    cases htry : tryLr (c :: rest) with
    | some w =>
      rw [htry] at h
      obtain rfl := Option.some.inj h
      exact tryLr_ne_empty (c :: rest) w htry
    | none =>
      rw [htry] at h
      exact ih h

theorem searchEsr_ne_empty (s : List Char) (v : String)
    (h : searchEsr s = some v) : v ≠ "" := by
  induction s with
  | nil => cases h
  | cons c rest ih =>
    simp only [searchEsr] at h
    cases htry : tryEsr (c :: rest) with
    | some w =>
      rw [htry] at h
      obtain rfl := Option.some.inj h
      exact tryEsr_ne_empty (c :: rest) w htry
    | none =>
      rw [htry] at h
      exact ih h

theorem extract_elr_ne_empty (crash : List String) (v : String)
    (h : extract_elr crash = some v) : v ≠ "" := by
  induction crash with
  | nil => cases h
  | cons l rest ih =>
    simp only [extract_elr] at h
    cases hs : searchElr l.data with
    | some w =>
      rw [hs] at h
      obtain rfl := Option.some.inj h
      exact searchElr_ne_empty l.data w hs
    | none =>
      rw [hs] at h
      exact ih h

theorem extract_lr_ne_empty (crash : List String) (v : String)
    (h : extract_lr crash = some v) : v ≠ "" := by
  induction crash with
  | nil => cases h
  | cons l rest ih =>
    simp only [extract_lr] at h
    cases hs : searchLr l.data with
    | some w =>
      rw [hs] at h
      obtain rfl := Option.some.inj h
      exact searchLr_ne_empty l.data w hs
    | none =>
      rw [hs] at h
      exact ih h

theorem extract_esr_ne_empty (crash : List String) (v : String)
    (h : extract_esr crash = some v) : v ≠ "" := by
  induction crash with
  | nil => cases h
  | cons l rest ih =>
    simp only [extract_esr] at h
    cases hs : searchEsr l.data with
    | some w =>
      rw [hs] at h
      obtain rfl := Option.some.inj h
      exact searchEsr_ne_empty l.data w hs
    | none =>
      rw [hs] at h
      exact ih h

theorem mkEntry_elr (s : Monitor) (c : Bool) :
    (mkEntry s c).elr = extract_elr s.crash_temp := by
  show pyOptStr (extract_elr s.crash_temp) = extract_elr s.crash_temp
  cases h : extract_elr s.crash_temp with
  | none => rfl
  | some v => simp [pyOptStr, extract_elr_ne_empty s.crash_temp v h]

theorem mkEntry_lr (s : Monitor) (c : Bool) :
    (mkEntry s c).lr = extract_lr s.crash_temp := by
  show pyOptStr (extract_lr s.crash_temp) = extract_lr s.crash_temp
  cases h : extract_lr s.crash_temp with
  | none => rfl
  | some v => simp [pyOptStr, extract_lr_ne_empty s.crash_temp v h]

theorem mkEntry_esr (s : Monitor) (c : Bool) :
    (mkEntry s c).esr = extract_esr s.crash_temp := by
  show pyOptStr (extract_esr s.crash_temp) = extract_esr s.crash_temp
  cases h : extract_esr s.crash_temp with
  | none => rfl
  | some v => simp [pyOptStr, extract_esr_ne_empty s.crash_temp v h]

theorem finalize_crash_stores (s : Monitor) (c : Bool) :
    ∃ rid, (finalize_crash c s).run_id = some rid
      ∧ (finalize_crash c s).crash_db = dictInsert rid (mkEntry s c) s.crash_db := by
  cases h : s.run_id with
  | none =>
    rw [finalize_crash_of_run_id_none s c h]
    exact ⟨"run_" ++ toString (s.run_counter + 1), rfl, rfl⟩
  | some rid =>
    rw [finalize_crash_of_run_id_some s rid c h]
    exact ⟨rid, h, rfl⟩

/-- C8: each register extractor is a total function returning the first
capture of its pattern over the lines, or `none` when no line matches;
the finalized record carries exactly the extracted values (in particular
`none` for each absent field), and a buffer with missing fields still
finalizes into a stored record. -/
theorem c8_register_extraction (crash pre post : List String) (l : String)
    (s : Monitor) (c : Bool) :
    ((∀ p ∈ crash, searchElr p.data = none) → extract_elr crash = none)
    ∧ ((∀ p ∈ crash, searchLr p.data = none) → extract_lr crash = none)
    ∧ ((∀ p ∈ crash, searchEsr p.data = none) → extract_esr crash = none)
    ∧ ((∀ p ∈ pre, searchElr p.data = none) → ∀ v, searchElr l.data = some v →
        extract_elr (pre ++ l :: post) = some v)
    ∧ ((∀ p ∈ pre, searchLr p.data = none) → ∀ v, searchLr l.data = some v →
        extract_lr (pre ++ l :: post) = some v)
    ∧ ((∀ p ∈ pre, searchEsr p.data = none) → ∀ v, searchEsr l.data = some v →
        extract_esr (pre ++ l :: post) = some v)
    ∧ (mkEntry s c).elr = extract_elr s.crash_temp
    ∧ (mkEntry s c).lr = extract_lr s.crash_temp
    ∧ (mkEntry s c).esr = extract_esr s.crash_temp
    ∧ (∃ rid, (finalize_crash c s).run_id = some rid
        ∧ (finalize_crash c s).crash_db
            = dictInsert rid (mkEntry s c) s.crash_db) :=
  ⟨extract_elr_of_none crash, extract_lr_of_none crash,
    extract_esr_of_none crash,
    fun hpre v hl => extract_elr_append pre post l v hpre hl,
    fun hpre v hl => extract_lr_append pre post l v hpre hl,
    fun hpre v hl => extract_esr_append pre post l v hpre hl,
    mkEntry_elr s c, mkEntry_lr s c, mkEntry_esr s c,
    finalize_crash_stores s c⟩

/-- C8 (witness): a buffer with no register lines extracts `none`
everywhere and still finalizes into a stored record with `none` fields. -/
theorem c8_register_extraction_witness :
    extract_elr ["boot msg", "no registers here"] = none
    ∧ extract_lr ["boot msg"] = none
    ∧ extract_esr ["boot msg"] = none
    ∧ extract_elr (["boot msg"] ++ "elr: 0xdead" :: []) = some "0xdead" :=
  ⟨(c8_register_extraction ["boot msg", "no registers here"] [] [] ""
      initMonitor true).1 (by decide),
   (c8_register_extraction ["boot msg"] [] [] "" initMonitor true).2.1
      (by decide),
   (c8_register_extraction ["boot msg"] [] [] "" initMonitor true).2.2.1
      (by decide),
   (c8_register_extraction [] ["boot msg"] [] "elr: 0xdead" initMonitor
      true).2.2.2.1 (by decide) "0xdead" (by decide)⟩

/-! ## C9: a single code token -/

theorem findall8hexFuel_ne_empty (fuel : Nat) :
    ∀ (s : List Char), ∀ t ∈ findall8hexFuel fuel s, t ≠ "" := by
  induction fuel with
  | zero =>
    intro s t ht
    cases s <;> simp [findall8hexFuel] at ht
  | succ n ih =>
    intro s t ht
    cases s with
    | nil => simp [findall8hexFuel] at ht
    | cons c rest =>
      simp only [findall8hexFuel] at ht
      by_cases hc :
          (8 ≤ (c :: rest).length && ((c :: rest).take 8).all pyHexDigit) = true
      · rw [if_pos hc] at ht
        rcases List.mem_cons.mp ht with h | h
        · subst h
          exact mk_ne_empty_of_ne_nil _ (by simp)
        · exact ih _ t h
      · rw [if_neg hc] at ht
        exact ih rest t ht

/-- C9: when the first `"Code:"` line of the crash buffer yields exactly
one eight-hex-digit token, the finalized record has that token as its
faulting instruction and `none` — not an empty sequence — as its previous
instructions, and the record is stored. -/
theorem c9_single_code_token (s : Monitor) (c : Bool)
    (pre post : List String) (l t : String)
    (hsplit : s.crash_temp = pre ++ l :: post)
    (hpre : ∀ p ∈ pre, pyStartsWith p "Code:" = false)
    (hl : pyStartsWith l "Code:" = true)
    (htok : findall8hex l.data = [t]) :
    (mkEntry s c).faulting_instruction = some t
    ∧ (mkEntry s c).prev_instructions = none
    ∧ (∃ rid, (finalize_crash c s).run_id = some rid
        ∧ (finalize_crash c s).crash_db
            = dictInsert rid (mkEntry s c) s.crash_db) := by
  have hcode : extract_code s.crash_temp = (some [], some t) := by
    rw [hsplit, extract_code_append pre post l hpre]
    rw [extract_code, if_pos (by simp [hl])]
    rw [htok]
    rfl
  have ht : t ≠ "" := by
    have hmem : t ∈ findall8hex l.data := by
      rw [htok]
      exact List.mem_singleton_self t
    exact findall8hexFuel_ne_empty l.data.length l.data t hmem
  refine ⟨?_, ?_, finalize_crash_stores s c⟩
  · show pyOptStr (extract_code s.crash_temp).2 = some t
    rw [hcode]
    simp [pyOptStr, ht]
  · show pyOptList (extract_code s.crash_temp).1 = none
    rw [hcode]
    rfl

/-- C9 (witness): a crash buffer whose code line carries the single token
`"12345678"`. -/
theorem c9_single_code_token_witness :
    (mkEntry { initMonitor with crash_temp := ["Code: 12345678"] }
      true).faulting_instruction = some "12345678"
    ∧ (mkEntry { initMonitor with crash_temp := ["Code: 12345678"] }
        true).prev_instructions = none
    ∧ (∃ rid,
        (finalize_crash true
          { initMonitor with crash_temp := ["Code: 12345678"] }).run_id
          = some rid
        ∧ (finalize_crash true
            { initMonitor with crash_temp := ["Code: 12345678"] }).crash_db
            = dictInsert rid
                (mkEntry { initMonitor with crash_temp := ["Code: 12345678"] }
                  true)
                ({ initMonitor with
                    crash_temp := ["Code: 12345678"] } : Monitor).crash_db) :=
  c9_single_code_token
    { initMonitor with crash_temp := ["Code: 12345678"] } true
    [] [] "Code: 12345678" "12345678" rfl (by decide) (by decide) (by decide)

/-! ## C10: the manual run-id override -/

theorem process_line_reset (s : Monitor) (line : String)
    (hline : matchCpuReset line = true) :
    process_line line s =
      (let s1 := if s.crash_active then finalize_crash false s else s
       { s1 with
           run_counter := s1.run_counter + 1
           run_id := some ("run_" ++ toString (s1.run_counter + 1))
           state := "booting"
           log_buffer := dequeAppend s1.max_log [] line }) := by
  simp [process_line, hline]

/-- C10: `set_run_id` changes only the current run id; a finalize before
the next reset keys its record under the overridden id without touching
the counter, and the next reset marker assigns `"run_<counter+1>"` from
the internal counter, ignoring the overridden value. -/
theorem c10_set_run_id_frame (s : Monitor) (rid : String) (line : String)
    (c : Bool) (hline : matchCpuReset line = true) :
    (set_run_id rid s).run_id = some rid
    ∧ (set_run_id rid s).run_counter = s.run_counter
    ∧ (set_run_id rid s).state = s.state
    ∧ (set_run_id rid s).log_buffer = s.log_buffer
    ∧ (set_run_id rid s).max_log = s.max_log
    ∧ (set_run_id rid s).crash_active = s.crash_active
    ∧ (set_run_id rid s).crash_temp = s.crash_temp
    ∧ (set_run_id rid s).last_crash = s.last_crash
    ∧ (set_run_id rid s).crash_db = s.crash_db
    ∧ (set_run_id rid s).print_enabled = s.print_enabled
    ∧ (set_run_id rid s).running = s.running
    ∧ (set_run_id rid s).crash_db_path = s.crash_db_path
    ∧ (set_run_id rid s).time = s.time
    ∧ (finalize_crash c (set_run_id rid s)).crash_db
        = dictInsert rid (mkEntry (set_run_id rid s) c) s.crash_db
    ∧ (finalize_crash c (set_run_id rid s)).run_counter = s.run_counter
    ∧ (process_line line (set_run_id rid s)).run_id
        = some ("run_" ++ toString (s.run_counter + 1))
    ∧ (process_line line (set_run_id rid s)).run_counter
        = s.run_counter + 1 := by
  have hf := finalize_crash_of_run_id_some (set_run_id rid s) rid c rfl
  have h2 : (if (set_run_id rid s).crash_active then
      finalize_crash false (set_run_id rid s)
      else set_run_id rid s).run_counter = s.run_counter := by
    by_cases hc : (set_run_id rid s).crash_active
    · rw [if_pos hc,
        finalize_crash_of_run_id_some (set_run_id rid s) rid false rfl]
      rfl
    · rw [if_neg hc]
      rfl
  refine ⟨rfl, rfl, rfl, rfl, rfl, rfl, rfl, rfl, rfl, rfl, rfl, rfl, rfl,
    ?_, ?_, ?_, ?_⟩
  · rw [hf]
    rfl
  · rw [hf]
    rfl
  · rw [process_line_reset (set_run_id rid s) line hline]
    exact congrArg (fun n => some ("run_" ++ toString (n + 1))) h2
  · rw [process_line_reset (set_run_id rid s) line hline]
    exact congrArg (fun n => n + 1) h2

/-- C10 (witness): overriding the run id to `"flash_7"` on the scenario
end state, then finalizing and then resetting. -/
theorem c10_set_run_id_frame_witness :
    (set_run_id "flash_7" scenarioStep6).run_id = some "flash_7"
    ∧ (set_run_id "flash_7" scenarioStep6).run_counter
        = scenarioStep6.run_counter
    ∧ (finalize_crash true (set_run_id "flash_7" scenarioStep6)).crash_db
        = dictInsert "flash_7"
            (mkEntry (set_run_id "flash_7" scenarioStep6) true)
            scenarioStep6.crash_db
    ∧ (process_line "NOTICE: CPU: STM32MP257FAI Rev.Y"
        (set_run_id "flash_7" scenarioStep6)).run_id
        = some ("run_" ++ toString (scenarioStep6.run_counter + 1)) :=
  have h := c10_set_run_id_frame scenarioStep6 "flash_7"
    "NOTICE: CPU: STM32MP257FAI Rev.Y" true (by decide)
  ⟨h.1, h.2.1, h.2.2.2.2.2.2.2.2.2.2.2.2.2.1,
    h.2.2.2.2.2.2.2.2.2.2.2.2.2.2.2.1⟩

end MpuMonitor
